import Mathlib

/-!
Verification of the interaction and personalization subsystem of the
gh-notice-board backend: the generic like/dislike/bookmark toggle engine,
the user-interest scorer, the recommended feed, review aggregation,
comment edit tracking and Web Push delivery, shallowly embedded from the
Python source (`interactions`, `news` and `tags` apps).
-/

namespace GhNoticeBoard

/-! ## Definitions -/

/-- Database key of a generic interaction row: the acting user's id together
with the `(content_type, object_id)` pair addressed by the request.
`object_id` is a `CharField` (it supports both integer and UUID ids), so it
is modelled as a string. -/
abbrev InteractionKey := Nat × Nat × String

/-- The relational state touched by the toggle endpoints: the generic `Like`,
`Dislike` and `Bookmark` tables of `interactions.models` (each has
`unique_together [user, content_type, object_id]`, hence is a set of keys),
together with the denormalized `likes_count` column of `news.NewsArticle`,
keyed by article id.  The counter is an integer because
`NewsArticleViewSet.like` writes it with a bare `F`-expression increment or
decrement, with no floor. -/
structure ToggleDb where
  likes : Finset InteractionKey
  dislikes : Finset InteractionKey
  bookmarks : Finset InteractionKey
  articleLikesCount : String → Int

/-- Embedding of `interactions.views.LikeToggleView.post`: `get_or_create`
the `Like` row for `(user, content_type, object_id)`; if it already existed,
delete it and respond `liked=false`; otherwise keep the created row, delete
any `Dislike` row for the same key, and respond `liked=true`.  The view
touches no denormalized counter. -/
def toggleLike (db : ToggleDb) (user ct : Nat) (oid : String) : ToggleDb × Bool :=
  if (user, ct, oid) ∈ db.likes then
    ({ db with likes := db.likes.erase (user, ct, oid) }, false)
  else
    ({ db with likes := insert (user, ct, oid) db.likes,
               dislikes := db.dislikes.erase (user, ct, oid) }, true)

/-- Embedding of `interactions.views.DislikeToggleView.post`: symmetric to
the like toggle, creating or deleting the `Dislike` row and deleting any
opposite `Like` row when a dislike is created. -/
def toggleDislike (db : ToggleDb) (user ct : Nat) (oid : String) : ToggleDb × Bool :=
  if (user, ct, oid) ∈ db.dislikes then
    ({ db with dislikes := db.dislikes.erase (user, ct, oid) }, false)
  else
    ({ db with dislikes := insert (user, ct, oid) db.dislikes,
               likes := db.likes.erase (user, ct, oid) }, true)

/-- Embedding of `interactions.views.BookmarkToggleView.post`: create the
absent `Bookmark` row (responding `bookmarked=true`) or delete the present
one (responding `bookmarked=false`).  No other table is touched. -/
def toggleBookmark (db : ToggleDb) (user ct : Nat) (oid : String) : ToggleDb × Bool :=
  if (user, ct, oid) ∈ db.bookmarks then
    ({ db with bookmarks := db.bookmarks.erase (user, ct, oid) }, false)
  else
    ({ db with bookmarks := insert (user, ct, oid) db.bookmarks }, true)

/-- Embedding of `news.views.NewsArticleViewSet.like`: `get_or_create` the
`Like` row for the article (content type `ctNews` resolved by
`ContentType.objects.get_for_model(NewsArticle)`); on unlike the row is
deleted and `likes_count` is written as `F(likes_count) - 1`; on like the
row is kept and `likes_count` is written as `F(likes_count) + 1`.  The
action never deletes an opposite `Dislike` row and applies no floor to the
decrement. -/
def newsLikeToggle (db : ToggleDb) (user ctNews : Nat) (articleId : String) :
    ToggleDb × Bool :=
  if (user, ctNews, articleId) ∈ db.likes then
    ({ db with likes := db.likes.erase (user, ctNews, articleId),
               articleLikesCount := fun a =>
                 if a = articleId then db.articleLikesCount a - 1
                 else db.articleLikesCount a }, false)
  else
    ({ db with likes := insert (user, ctNews, articleId) db.likes,
               articleLikesCount := fun a =>
                 if a = articleId then db.articleLikesCount a + 1
                 else db.articleLikesCount a }, true)

/-- Concrete starting state for the toggle scenarios: empty interaction
tables and every article counter at zero. -/
def emptyToggleDb : ToggleDb := ⟨∅, ∅, ∅, fun _ => 0⟩

/-- Concrete state whose single interaction row is a `Like` by user 0 on
article "a" (content type 0) while the article's `likes_count` column is
still 0 (the generic like toggle creates such rows without ever touching
the counter). -/
def likedToggleDb : ToggleDb := ⟨{(0, 0, "a")}, ∅, ∅, fun _ => 0⟩

/-- Counter columns of a `tags.models.UserInterest` row, plus its derived
`score` (a `FloatField`; modelled over the rationals). -/
structure UserInterestRow where
  view_count : Nat
  like_count : Nat
  share_count : Nat
  time_spent : Nat
  score : ℚ
deriving DecidableEq

/-- Defaults of a freshly created `UserInterest` row: all counters 0 and
`score = 0.0`. -/
def zeroInterest : UserInterestRow := ⟨0, 0, 0, 0, 0⟩

/-- Embedding of `UserInterest.calculate_score`: recompute and store
`score = view_count * 1 + like_count * 5 + share_count * 10 +
time_spent / 60 * 2` (Python true division; the weights are hardcoded
literals in the method). -/
def calculate_score (r : UserInterestRow) : UserInterestRow :=
  { r with score :=
      (r.view_count : ℚ) * 1 + (r.like_count : ℚ) * 5 +
      (r.share_count : ℚ) * 10 + (r.time_spent : ℚ) / 60 * 2 }

/-- Key of a `UserInterest` row for one user: `Sum.inl c` is the
`(user, category)` row for category id `c`, `Sum.inr t` the `(user, tag)`
row for tag id `t` (the model is `unique_together` on both pairs). -/
abbrev InterestKey := Nat ⊕ Nat

/-- The `UserInterest` table, modelled as a total map from `(user, key)` to
a row: `get_or_create` with all-default counters is observationally the
lookup of a default row, so absent rows are represented by `zeroInterest`. -/
abbrev InterestDb := Nat → InterestKey → UserInterestRow

/-- Point update of one `UserInterest` row. -/
def updateInterest (db : InterestDb) (user : Nat) (key : InterestKey)
    (r : UserInterestRow) : InterestDb :=
  fun u k => if u = user ∧ k = key then r else db u k

/-- The in-memory counter mutations of one branch of
`tags.views.TrackInteractionView.post`: `interest.view_count += 1` (or
like/share; any other type bumps nothing) and `interest.time_spent +=
time_spent` when it is truthy.  These mutations live on the loaded
instance only — the view itself never saves the instance. -/
def bumpCounters (r : UserInterestRow) (itype : String) (timeSpent : Nat) :
    UserInterestRow :=
  let r1 :=
    if itype = "view" then { r with view_count := r.view_count + 1 }
    else if itype = "like" then { r with like_count := r.like_count + 1 }
    else if itype = "share" then { r with share_count := r.share_count + 1 }
    else r
  if timeSpent ≠ 0 then { r1 with time_spent := r1.time_spent + timeSpent } else r1

/-- The column write performed by `UserInterest.calculate_score`:
`self.save(update_fields=[score])` persists only the recomputed score, so
the stored row keeps its previously stored counters and receives the score
computed on the in-memory instance. -/
def persistScoreOnly (stored inMemory : UserInterestRow) : UserInterestRow :=
  { stored with score := inMemory.score }

/-- Embedding of `TrackInteractionView.post`: reject a missing or empty
interaction type (HTTP 400, modelled as `none`); otherwise, when
`category_id` is truthy (Python: present and nonzero), get-or-create the
`(user, category)` row, bump its counters in memory and run
`calculate_score`, whose `update_fields=[score]` save persists the new
score onto the stored row while leaving its stored counters untouched;
then, independently, do the same for the `(user, tag)` row when `tag_id`
is truthy. -/
def trackInteraction (db : InterestDb) (user : Nat) (itype : String)
    (categoryId tagId : Option Nat) (timeSpent : Nat) : Option InterestDb :=
  if itype = "" then none
  else
    let db1 :=
      match categoryId with
      | some c =>
          if c ≠ 0 then
            updateInterest db user (Sum.inl c)
              (persistScoreOnly (db user (Sum.inl c))
                (calculate_score (bumpCounters (db user (Sum.inl c)) itype timeSpent)))
          else db
      | none => db
    let db2 :=
      match tagId with
      | some t =>
          if t ≠ 0 then
            updateInterest db1 user (Sum.inr t)
              (persistScoreOnly (db1 user (Sum.inr t))
                (calculate_score (bumpCounters (db1 user (Sum.inr t)) itype timeSpent)))
          else db1
      | none => db1
    some db2

/-- The empty `UserInterest` table: every row at its defaults. -/
def emptyInterestDb : InterestDb := fun _ _ => zeroInterest

/-- One row of `tags.models.PushSubscription`: endpoint plus Web Push keys,
device info and the `is_active` soft-delete flag. -/
structure PushSub where
  id : Nat
  user : Nat
  endpoint : String
  p256dh : String
  auth : String
  device_name : String
  user_agent : String
  is_active : Bool
deriving DecidableEq

/-- Outcome of one `webpush(...)` transport call for a given subscription:
success, a `WebPushException` (carrying the response status code when the
push service attached a response), or any other exception. -/
inductive PushOutcome where
  | success
  | webPushError (statusCode : Option Nat)
  | otherError
deriving DecidableEq

/-- The `if e.response and e.response.status_code in [404, 410]` test of
`send_push_notification`: the subscription endpoint is permanently gone. -/
def goneOutcome : PushOutcome → Bool
  | PushOutcome.webPushError (some c) => c = 404 ∨ c = 410
  | _ => false

/-- Result dictionary of `send_push_notification`. -/
structure PushResult where
  sent : Nat
  failed : Nat
  failed_subscriptions : List Nat
deriving DecidableEq

/-- Embedding of `tags.push_notifications.send_push_notification`: iterate
over the user's subscriptions with `is_active=True` (inactive rows are not
attempted), attempting delivery to each independently; a success increments
`sent`; a `WebPushException` increments `failed` and, when the response
status is 404 or 410, flips the row's `is_active` to false (the row is never
deleted); any other exception only increments `failed`.  Every exception is
caught inside the loop, so the function always returns a result dictionary.
The outcome of each transport call is supplied as a function of the
subscription id. -/
def send_push_notification (subs : List PushSub) (outcome : Nat → PushOutcome) :
    PushResult × List PushSub :=
  match subs with
  | [] => (⟨0, 0, []⟩, [])
  | s :: rest =>
      let r := send_push_notification rest outcome
      if s.is_active then
        match outcome s.id with
        | PushOutcome.success => ({ r.1 with sent := r.1.sent + 1 }, s :: r.2)
        | PushOutcome.webPushError code =>
            if goneOutcome (PushOutcome.webPushError code) then
              ({ r.1 with failed := r.1.failed + 1,
                          failed_subscriptions := s.id :: r.1.failed_subscriptions },
                { s with is_active := false } :: r.2)
            else ({ r.1 with failed := r.1.failed + 1 }, s :: r.2)
        | PushOutcome.otherError => ({ r.1 with failed := r.1.failed + 1 }, s :: r.2)
      else (r.1, s :: r.2)

/-- Per-row classification used to state the push theorem: a row is counted
in `sent` iff it is active and its transport call succeeds. -/
def pushSent (outcome : Nat → PushOutcome) (s : PushSub) : Bool :=
  s.is_active && decide (outcome s.id = PushOutcome.success)

/-- Per-row classification used to state the push theorem: a row is counted
in `failed` iff it is active and its transport call does not succeed. -/
def pushFailed (outcome : Nat → PushOutcome) (s : PushSub) : Bool :=
  s.is_active && decide (outcome s.id ≠ PushOutcome.success)

/-- Concrete two-subscription table for the push scenario: both rows active,
owned by user 7. -/
def twoSubs : List PushSub :=
  [⟨1, 7, "epA", "kA", "aA", "phone", "ua", true⟩,
   ⟨2, 7, "epB", "kB", "aB", "laptop", "ua", true⟩]

/-- Concrete transport outcomes for the push scenario: subscription 1 is
reported permanently gone (HTTP 410), subscription 2 succeeds. -/
def goneThenSuccess : Nat → PushOutcome :=
  fun i => if i = 1 then PushOutcome.webPushError (some 410) else PushOutcome.success

/-- Class names bound at module scope by `news/models.py`: the article
model is `NewsArticle` (whose counter column is `views_count`); no binding
named `Article` exists. -/
def newsModelsClasses : List String := ["NewsArticle", "NewsImage", "NewsRevision"]

/-- The exception raised by `from news.models import Article`, the first
statement of both feed builders of `tags.views.RecommendedFeedView`. -/
def articleImportError : String :=
  "ImportError: cannot import name Article from news.models"

/-- Embedding of `RecommendedFeedView._get_trending_feed`: its first
statement is `from news.models import Article`, and `news.models` has no
such binding (see `newsModelsClasses`), so the method raises ImportError
before reading any row — none of the queryset, ordering or pagination code
below the import is reachable (that code would also read `view_count`, a
field `NewsArticle` does not have). -/
def trendingFeed (_page_size _page : Nat) : Except String Unit :=
  Except.error articleImportError

/-- Embedding of `RecommendedFeedView._get_personalized_feed`: it opens
with the same failing `from news.models import Article`, so it equally
raises before touching interests, subscriptions or articles. -/
def personalizedFeed (_page_size _page : Nat) : Except String Unit :=
  Except.error articleImportError

/-- Embedding of `RecommendedFeedView.get`: the dispatch tests only
`request.user.is_authenticated` — authenticated requests call the
personalized builder, anonymous requests the trending builder; the rows of
`UserInterest` play no part in the dispatch.  Either call raises the
failing-import error. -/
def recommendedFeed (authenticated : Bool) (page_size page : Nat) :
    Except String Unit :=
  if authenticated then personalizedFeed page_size page
  else trendingFeed page_size page


/-- One row of `interactions.models.Review` (`rating` is 1..5,
`is_approved` defaults to true). -/
structure Review where
  user : Nat
  content_type : Nat
  object_id : String
  rating : Nat
  title : String
  comment : String
  is_approved : Bool
deriving DecidableEq

/-- Errors surfaced by the embedded endpoints, named after the spec's
taxonomy: `conflict` is the rejection of a duplicate one-per-user row (the
database `unique_together` constraint firing on insert), `validation` a
serializer validation failure. -/
inductive ApiError where
  | conflict
  | validation
deriving DecidableEq

/-- Uniqueness key of a review: `unique_together [user, content_type,
object_id]`. -/
def reviewKey (r : Review) : Nat × Nat × String :=
  (r.user, r.content_type, r.object_id)

/-- Embedding of review creation through `ReviewListCreateView`: the
serializer validates the rating bounds (`validate_rating`), then
`serializer.save(user=request.user)` inserts the row with
`is_approved=True`; the insert is rejected when a row with the same
`(user, content_type, object_id)` key already exists (the model's
`unique_together` constraint), leaving the table unchanged. -/
def createReview (reviews : List Review) (user ct : Nat) (oid : String)
    (rating : Nat) (title comment : String) : Except ApiError (List Review) :=
  if rating < 1 ∨ 5 < rating then Except.error ApiError.validation
  else if ∃ r ∈ reviews, r.user = user ∧ r.content_type = ct ∧ r.object_id = oid then
    Except.error ApiError.conflict
  else Except.ok (reviews ++ [⟨user, ct, oid, rating, title, comment, true⟩])

/-- Rounding of `round(x, 2)` modelled on the rationals: round half to even
at two decimal places (Python rounds the binary float representation; the
tie rule never matters for the properties proved here because both sides of
each equation use the same function). -/
def roundHalfEven (q : ℚ) : ℤ :=
  if q - ⌊q⌋ < 1 / 2 then ⌊q⌋
  else if 1 / 2 < q - ⌊q⌋ then ⌊q⌋ + 1
  else if Even ⌊q⌋ then ⌊q⌋ else ⌊q⌋ + 1

/-- Two-decimal rounding used for `average_rating`. -/
def round2 (q : ℚ) : ℚ := (roundHalfEven (q * 100) : ℚ) / 100

/-- The review-related half of the `InteractionStatsView.get` response
(like/dislike counts are included for completeness). -/
structure InteractionStats where
  likes_count : Nat
  dislikes_count : Nat
  reviews_count : Nat
  average_rating : ℚ
deriving DecidableEq

/-- The queryset filter of the stats view's review aggregate: rows for the
target with `is_approved=True`. -/
def approvedFor (ct : Nat) (oid : String) (r : Review) : Bool :=
  decide (r.content_type = ct ∧ r.object_id = oid ∧ r.is_approved = true)

/-- The `reviews.aggregate(Avg(rating))` value of the stats view: `None`
when the approved queryset is empty, else the arithmetic mean. -/
def reviewAvg (reviews : List Review) (ct : Nat) (oid : String) : Option ℚ :=
  if (reviews.filter (approvedFor ct oid)).length = 0 then none
  else some (((reviews.filter (approvedFor ct oid)).map fun r => (r.rating : ℚ)).sum /
    (reviews.filter (approvedFor ct oid)).length)

/-- Embedding of `interactions.views.InteractionStatsView.get`: counts of
`Like` and `Dislike` rows for the target, the count of approved reviews,
and the rating average defaulted with `or 0` and rounded to two decimals. -/
def interactionStats (db : ToggleDb) (reviews : List Review) (ct : Nat)
    (oid : String) : InteractionStats :=
  { likes_count := (db.likes.filter fun p => p.2.1 = ct ∧ p.2.2 = oid).card,
    dislikes_count := (db.dislikes.filter fun p => p.2.1 = ct ∧ p.2.2 = oid).card,
    reviews_count := (reviews.filter (approvedFor ct oid)).length,
    average_rating := round2 ((reviewAvg reviews ct oid).getD 0) }

/-- Concrete review table for the stats scenario: two approved reviews
(ratings 4 and 5) and one unapproved review (rating 1) on target (1, "x"). -/
def sampleReviews : List Review :=
  [⟨10, 1, "x", 4, "", "good", true⟩,
   ⟨11, 1, "x", 5, "", "great", true⟩,
   ⟨12, 1, "x", 1, "", "bad", false⟩]

/-- One row of `interactions.models.Comment` restricted to the fields the
`save` override reads and writes.  `pk` is the UUID primary key; its
`default=uuid.uuid4` is assigned when the instance is constructed, so it is
non-empty even before the first insert. -/
structure CommentRow where
  pk : String
  content : String
  parent : Option String
  is_edited : Bool
  edited_at : Option Int
  reply_count : Nat
deriving DecidableEq

/-- The lookup `self._state.fields_cache.get(field)` performed by
`Comment.save`: Django's `fields_cache` only ever caches relational fields,
and `content` is a `TextField`, so the lookup always misses and returns
`None`. -/
def fieldsCacheGet (_field : String) : Option String := none

/-- The edit-detection head of `Comment.save`: `if self.pk and self.content
!= self._state.fields_cache.get(content)`.  The UUID `pk` is truthy unless
blank, and the Python `!=` compares the string `content` against the
`None` returned by the cache lookup, which is true for every string. -/
def commentEditFlag (c : CommentRow) (now : Int) : CommentRow :=
  if c.pk ≠ "" ∧ some c.content ≠ fieldsCacheGet "content" then
    { c with is_edited := true, edited_at := some now }
  else c

/-- `super().save()`: write the instance's row, inserting it when no row
with its primary key exists yet. -/
def upsertComment (db : List CommentRow) (row : CommentRow) : List CommentRow :=
  if db.any fun r => decide (r.pk = row.pk) then
    db.map fun r => if r.pk = row.pk then row else r
  else db ++ [row]

/-- The exact reply count `parent.replies.count()`: the number of rows whose
`parent` references the given primary key. -/
def replyCountOf (db : List CommentRow) (p : String) : Nat :=
  (db.filter fun r => decide (r.parent = some p)).length

/-- The tail of `Comment.save`: `parent.reply_count = parent.replies.count()`
followed by `parent.save(update_fields=[reply_count])`, which re-enters
`Comment.save` for the parent and hence recomputes the next ancestor's
reply count in turn (`update_fields` keeps the in-memory `is_edited` flag
set on the parent from being persisted).  The recursion is fuelled: Python
recurses up the (acyclic in practice) parent chain. -/
def fixAncestorCounts : Nat → List CommentRow → Option String → List CommentRow
  | _, db, none => db
  | 0, db, some _ => db
  | fuel + 1, db, some p =>
      let db1 := db.map fun r =>
        if r.pk = p then { r with reply_count := replyCountOf db p } else r
      fixAncestorCounts fuel db1 ((db1.find? fun r => decide (r.pk = p)).bind CommentRow.parent)

/-- Embedding of `Comment.save`: run the edit-detection head on the
instance, persist it, then recompute the ancestors' reply counts. -/
def commentSave (fuel : Nat) (db : List CommentRow) (c : CommentRow)
    (now : Int) : List CommentRow :=
  let c1 := commentEditFlag c now
  let db1 := upsertComment db c1
  fixAncestorCounts fuel db1 c1.parent

/-- Concrete stored comment: already persisted (pk "c1"), content "hello",
no parent, never edited. -/
def storedComment : CommentRow := ⟨"c1", "hello", none, false, none, 0⟩

/-- Concrete parent comment with two stored replies, used for the
reply-count recomputation scenario. -/
def parentWithTwoReplies : List CommentRow :=
  [⟨"p", "root", none, false, none, 2⟩,
   ⟨"r1", "first", some "p", false, none, 0⟩,
   ⟨"r2", "second", some "p", false, none, 0⟩]

/-- Embedding of `tags.views.PushSubscriptionView.post`:
`PushSubscriptionSerializer` is a `ModelSerializer` over `PushSubscription`,
whose `endpoint` is declared `unique=True`, so the serializer carries an
auto-generated uniqueness validator on `endpoint`; `is_valid()` therefore
fails — HTTP 400 — whenever any row with the submitted endpoint already
exists, whoever owns it and whether or not it is active, and the
`update_or_create` upsert only ever runs its create branch: a new row owned
by the requester with the submitted keys, the request's user agent and
`is_active=True` (its id modelled as a synthetic autoincrement). -/
def pushSubscribe (subs : List PushSub) (reqUser : Nat)
    (endpoint p256dh auth device_name user_agent : String) :
    Except ApiError (List PushSub) :=
  if ∃ s ∈ subs, s.endpoint = endpoint then Except.error ApiError.validation
  else Except.ok (subs ++
    [⟨subs.length, reqUser, endpoint, p256dh, auth, device_name, user_agent, true⟩])

/-- Concrete existing push subscription: endpoint "ep" owned by user 1,
currently inactive. -/
def existingSub : PushSub := ⟨0, 1, "ep", "oldKey", "oldAuth", "oldDev", "ua", false⟩

/-! ## Theorems -/

/-- C1: starting from any state in which the `(user, content_type,
object_id)` pair does not carry both a `Like` and a `Dislike`, running the
like toggle and then the dislike toggle leaves exactly the `Dislike` row
present for that pair and no `Like` row; moreover creating a like deletes
any opposite dislike and vice versa, so after any single like or dislike
toggle the pair never carries both rows — the both-present state is never
durable under these endpoints. -/
theorem like_then_dislike_mutually_exclusive :
    (∀ db user ct oid,
      ¬((user, ct, oid) ∈ db.likes ∧ (user, ct, oid) ∈ db.dislikes) →
      (user, ct, oid) ∈ (toggleDislike (toggleLike db user ct oid).1 user ct oid).1.dislikes ∧
      (user, ct, oid) ∉ (toggleDislike (toggleLike db user ct oid).1 user ct oid).1.likes) ∧
    (∀ db user ct oid,
      ¬((user, ct, oid) ∈ (toggleLike db user ct oid).1.likes ∧
        (user, ct, oid) ∈ (toggleLike db user ct oid).1.dislikes)) ∧
    (∀ db user ct oid,
      ¬((user, ct, oid) ∈ (toggleDislike db user ct oid).1.likes ∧
        (user, ct, oid) ∈ (toggleDislike db user ct oid).1.dislikes)) := by
  refine ⟨?_, ?_, ?_⟩
  · intro db user ct oid h
    by_cases hl : (user, ct, oid) ∈ db.likes
    · have hd : (user, ct, oid) ∉ db.dislikes := fun hd => h ⟨hl, hd⟩
      simp [toggleLike, toggleDislike, hl, hd, Finset.mem_erase]
    · have hd : (user, ct, oid) ∉ db.dislikes.erase (user, ct, oid) :=
        Finset.not_mem_erase _ _
      simp [toggleLike, toggleDislike, hl, hd, Finset.mem_erase]
  · intro db user ct oid
    by_cases hl : (user, ct, oid) ∈ db.likes
    · simp [toggleLike, hl, Finset.mem_erase]
    · simp [toggleLike, hl, Finset.mem_erase]
  · intro db user ct oid
    by_cases hd : (user, ct, oid) ∈ db.dislikes
    · simp [toggleDislike, hd, Finset.mem_erase]
    · simp [toggleDislike, hd, Finset.mem_erase]

/-- C1 witness: the mutual-exclusion theorem applied to the empty state, user
0 and target (0, "x"). -/
theorem like_then_dislike_mutually_exclusive_witness :
    (0, 0, "x") ∈ (toggleDislike (toggleLike emptyToggleDb 0 0 "x").1 0 0 "x").1.dislikes ∧
    (0, 0, "x") ∉ (toggleDislike (toggleLike emptyToggleDb 0 0 "x").1 0 0 "x").1.likes :=
  like_then_dislike_mutually_exclusive.1 emptyToggleDb 0 0 "x" (by decide)

/-- C2 counterexample: the generic like toggle creates the row and responds
`liked=true` yet leaves the article counter at 0 instead of incrementing it
to 1, and the news unlike action at counter 0 writes -1 — a bare decrement,
not a decrement floored at 0. -/
theorem toggle_counter_counterexample :
    ((toggleLike emptyToggleDb 0 0 "a").2 = true ∧
      (toggleLike emptyToggleDb 0 0 "a").1.articleLikesCount "a" = 0 ∧
      (0 : Int) ≠ 1) ∧
    ((newsLikeToggle likedToggleDb 0 0 "a").2 = false ∧
      (newsLikeToggle likedToggleDb 0 0 "a").1.articleLikesCount "a" = -1 ∧
      (-1 : Int) ≠ 0) := by
  refine ⟨⟨?_, ?_, by decide⟩, ⟨?_, ?_, by decide⟩⟩ <;> decide

/-- C2 amended: the generic like, dislike and bookmark toggle views create
the absent row (responding applied=true) or delete the present row
(responding applied=false) and never touch the denormalized news counter;
counter maintenance happens only in the news article like action, which
increments `likes_count` when the like is created and decrements it with no
floor when the like is removed. -/
theorem toggle_semantics_amended :
    (∀ db user ct oid,
      ((user, ct, oid) ∉ db.likes →
        (user, ct, oid) ∈ (toggleLike db user ct oid).1.likes ∧
        (toggleLike db user ct oid).2 = true) ∧
      ((user, ct, oid) ∈ db.likes →
        (user, ct, oid) ∉ (toggleLike db user ct oid).1.likes ∧
        (toggleLike db user ct oid).2 = false) ∧
      (toggleLike db user ct oid).1.articleLikesCount = db.articleLikesCount) ∧
    (∀ db user ct oid,
      ((user, ct, oid) ∉ db.dislikes →
        (user, ct, oid) ∈ (toggleDislike db user ct oid).1.dislikes ∧
        (toggleDislike db user ct oid).2 = true) ∧
      ((user, ct, oid) ∈ db.dislikes →
        (user, ct, oid) ∉ (toggleDislike db user ct oid).1.dislikes ∧
        (toggleDislike db user ct oid).2 = false) ∧
      (toggleDislike db user ct oid).1.articleLikesCount = db.articleLikesCount) ∧
    (∀ db user ct oid,
      ((user, ct, oid) ∉ db.bookmarks →
        (user, ct, oid) ∈ (toggleBookmark db user ct oid).1.bookmarks ∧
        (toggleBookmark db user ct oid).2 = true) ∧
      ((user, ct, oid) ∈ db.bookmarks →
        (user, ct, oid) ∉ (toggleBookmark db user ct oid).1.bookmarks ∧
        (toggleBookmark db user ct oid).2 = false) ∧
      (toggleBookmark db user ct oid).1.articleLikesCount = db.articleLikesCount) ∧
    (∀ db user ct aid,
      ((user, ct, aid) ∉ db.likes →
        (user, ct, aid) ∈ (newsLikeToggle db user ct aid).1.likes ∧
        (newsLikeToggle db user ct aid).2 = true ∧
        (newsLikeToggle db user ct aid).1.articleLikesCount aid =
          db.articleLikesCount aid + 1) ∧
      ((user, ct, aid) ∈ db.likes →
        (user, ct, aid) ∉ (newsLikeToggle db user ct aid).1.likes ∧
        (newsLikeToggle db user ct aid).2 = false ∧
        (newsLikeToggle db user ct aid).1.articleLikesCount aid =
          db.articleLikesCount aid - 1)) := by
  refine ⟨?_, ?_, ?_, ?_⟩
  · intro db user ct oid
    refine ⟨fun h => ?_, fun h => ?_, ?_⟩
    · simp [toggleLike, h, Finset.mem_insert]
    · simp [toggleLike, h, Finset.not_mem_erase]
    · by_cases h : (user, ct, oid) ∈ db.likes <;> simp [toggleLike, h]
  · intro db user ct oid
    refine ⟨fun h => ?_, fun h => ?_, ?_⟩
    · simp [toggleDislike, h, Finset.mem_insert]
    · simp [toggleDislike, h, Finset.not_mem_erase]
    · by_cases h : (user, ct, oid) ∈ db.dislikes <;> simp [toggleDislike, h]
  · intro db user ct oid
    refine ⟨fun h => ?_, fun h => ?_, ?_⟩
    · simp [toggleBookmark, h, Finset.mem_insert]
    · simp [toggleBookmark, h, Finset.not_mem_erase]
    · by_cases h : (user, ct, oid) ∈ db.bookmarks <;> simp [toggleBookmark, h]
  · intro db user ct aid
    refine ⟨fun h => ?_, fun h => ?_⟩
    · simp [newsLikeToggle, h, Finset.mem_insert]
    · simp [newsLikeToggle, h, Finset.not_mem_erase]

/-- C2 witness: the amended toggle theorem applied to the empty state, where
the fresh like is created, reported as applied, and the counter is left
untouched. -/
theorem toggle_semantics_amended_witness :
    (0, 0, "a") ∈ (toggleLike emptyToggleDb 0 0 "a").1.likes ∧
    (toggleLike emptyToggleDb 0 0 "a").2 = true :=
  (toggle_semantics_amended.1 emptyToggleDb 0 0 "a").1 (by decide)

/-- C3: toggling like twice in a row is a round trip — the user's liked
status returns to its original value (in particular to not-liked when it
started not liked) and the article like counter returns to its original
value, both for the generic like toggle (which never moves the counter) and
for the news article like action (whose increment and decrement cancel). -/
theorem like_double_toggle_roundtrip :
    (∀ db user ct oid,
      (((user, ct, oid) ∈
          (toggleLike (toggleLike db user ct oid).1 user ct oid).1.likes) ↔
        (user, ct, oid) ∈ db.likes) ∧
      (toggleLike (toggleLike db user ct oid).1 user ct oid).1.articleLikesCount =
        db.articleLikesCount) ∧
    (∀ db user ct aid,
      (((user, ct, aid) ∈
          (newsLikeToggle (newsLikeToggle db user ct aid).1 user ct aid).1.likes) ↔
        (user, ct, aid) ∈ db.likes) ∧
      ∀ b, (newsLikeToggle (newsLikeToggle db user ct aid).1 user ct aid).1.articleLikesCount b =
        db.articleLikesCount b) := by
  constructor
  · intro db user ct oid
    by_cases hl : (user, ct, oid) ∈ db.likes
    · constructor
      · simp [toggleLike, hl, Finset.mem_erase, Finset.not_mem_erase]
      · simp [toggleLike, hl, Finset.not_mem_erase]
    · constructor
      · simp [toggleLike, hl, Finset.mem_insert, Finset.mem_erase]
      · simp [toggleLike, hl, Finset.mem_insert]
  · intro db user ct aid
    by_cases hl : (user, ct, aid) ∈ db.likes
    · refine ⟨by simp [newsLikeToggle, hl, Finset.not_mem_erase, Finset.mem_insert], ?_⟩
      intro b
      by_cases hb : b = aid <;>
        simp [newsLikeToggle, hl, Finset.not_mem_erase, hb]
    · refine ⟨by simp [newsLikeToggle, hl, Finset.mem_insert], ?_⟩
      intro b
      by_cases hb : b = aid <;>
        simp [newsLikeToggle, hl, Finset.mem_insert, hb]

/-- C4: `calculate_score` recomputes the interest score by the fixed linear
formula `view_count * 1 + like_count * 5 + share_count * 10 +
time_spent / 60 * 2`; a row with counters (10, 2, 0, 120) scores 24; and a
single tracking call carrying both a category id and a tag id updates the
`(user, category)` row and the `(user, tag)` row independently — each
stored row keeps its previously stored counters (only the score column is
saved) and receives the score computed from its own in-memory bumped
counters — leaving every other row untouched. -/
theorem interest_score_formula :
    (∀ r, (calculate_score r).score =
      (r.view_count : ℚ) * 1 + (r.like_count : ℚ) * 5 +
      (r.share_count : ℚ) * 10 + (r.time_spent : ℚ) / 60 * 2) ∧
    (calculate_score ⟨10, 2, 0, 120, 0⟩).score = 24 ∧
    (∀ db user itype c t timeSpent, c ≠ 0 → t ≠ 0 → itype ≠ "" →
      ∃ db', trackInteraction db user itype (some c) (some t) timeSpent = some db' ∧
        db' user (Sum.inl c) =
          persistScoreOnly (db user (Sum.inl c))
            (calculate_score (bumpCounters (db user (Sum.inl c)) itype timeSpent)) ∧
        db' user (Sum.inr t) =
          persistScoreOnly (db user (Sum.inr t))
            (calculate_score (bumpCounters (db user (Sum.inr t)) itype timeSpent)) ∧
        ∀ u k, u ≠ user ∨ (k ≠ Sum.inl c ∧ k ≠ Sum.inr t) → db' u k = db u k) := by
  refine ⟨fun r => rfl, by norm_num [calculate_score], ?_⟩
  intro db user itype c t timeSpent hc ht hitype
  set db1 := updateInterest db user (Sum.inl c)
    (persistScoreOnly (db user (Sum.inl c))
      (calculate_score (bumpCounters (db user (Sum.inl c)) itype timeSpent))) with hdb1
  set db2 := updateInterest db1 user (Sum.inr t)
    (persistScoreOnly (db1 user (Sum.inr t))
      (calculate_score (bumpCounters (db1 user (Sum.inr t)) itype timeSpent))) with hdb2
  refine ⟨db2, ?_, ?_, ?_, ?_⟩
  · unfold trackInteraction
    rw [if_neg hitype]
    simp only [if_pos hc, if_pos ht, hdb1, hdb2]
  · simp [hdb2, hdb1, updateInterest]
  · simp [hdb2, hdb1, updateInterest]
  · intro u k h
    rcases h with h | ⟨h1, h2⟩
    · simp [hdb2, hdb1, updateInterest, h]
    · simp [hdb2, hdb1, updateInterest, h1, h2]

/-- C4 witness: the tracking theorem applied to the empty interest table,
user 1, a view interaction with category 2, tag 3 and 120 seconds spent
(each stored row afterwards still has zero counters and score 5 =
1 * 1 + 120 / 60 * 2). -/
theorem interest_score_formula_witness :
    ∃ db', trackInteraction emptyInterestDb 1 "view" (some 2) (some 3) 120 = some db' ∧
      db' 1 (Sum.inl 2) =
        persistScoreOnly (emptyInterestDb 1 (Sum.inl 2))
          (calculate_score (bumpCounters (emptyInterestDb 1 (Sum.inl 2)) "view" 120)) ∧
      db' 1 (Sum.inr 3) =
        persistScoreOnly (emptyInterestDb 1 (Sum.inr 3))
          (calculate_score (bumpCounters (emptyInterestDb 1 (Sum.inr 3)) "view" 120)) ∧
      ∀ u k, u ≠ 1 ∨ (k ≠ Sum.inl 2 ∧ k ≠ Sum.inr 3) → db' u k = emptyInterestDb u k :=
  interest_score_formula.2.2 emptyInterestDb 1 "view" 2 3 120
    (by decide) (by decide) (by decide)

/-- C5: push delivery attempts each active subscription independently: the
returned `sent` count is exactly the number of active subscriptions whose
transport call succeeds, `failed` exactly the number of active
subscriptions whose call raises; a row is flipped to inactive exactly when
it was active and the push service reported 404 or 410 (rows are never
deleted, inactive rows and rows with other failures keep their activity
flag); the function is total, so the caller always receives a result.  In
the two-subscription scenario with one permanent-gone and one success the
result is sent 1, failed 1, with only the first row deactivated. -/
theorem push_delivery_per_endpoint :
    (∀ subs outcome,
      (send_push_notification subs outcome).1.sent =
        (subs.filter (pushSent outcome)).length ∧
      (send_push_notification subs outcome).1.failed =
        (subs.filter (pushFailed outcome)).length ∧
      (send_push_notification subs outcome).2 =
        subs.map (fun s =>
          if s.is_active && goneOutcome (outcome s.id) then
            { s with is_active := false } else s)) ∧
    ((send_push_notification twoSubs goneThenSuccess).1.sent = 1 ∧
      (send_push_notification twoSubs goneThenSuccess).1.failed = 1 ∧
      (send_push_notification twoSubs goneThenSuccess).2 =
        [⟨1, 7, "epA", "kA", "aA", "phone", "ua", false⟩,
         ⟨2, 7, "epB", "kB", "aB", "laptop", "ua", true⟩]) := by
  constructor
  · intro subs outcome
    induction subs with
    | nil => simp [send_push_notification]
    | cons s rest ih =>
        by_cases hs : s.is_active
        · cases ho : outcome s.id with
          | success =>
              simp [send_push_notification, hs, ho, pushSent, pushFailed,
                List.filter_cons, ih.1, ih.2.1, ih.2.2, goneOutcome]
          | webPushError code =>
              by_cases hg : goneOutcome (PushOutcome.webPushError code)
              · simp [send_push_notification, hs, ho, hg, pushSent, pushFailed,
                  List.filter_cons, ih.1, ih.2.1, ih.2.2]
              · simp [send_push_notification, hs, ho, hg, pushSent, pushFailed,
                  List.filter_cons, ih.1, ih.2.1, ih.2.2]
          | otherError =>
              simp [send_push_notification, hs, ho, pushSent, pushFailed,
                List.filter_cons, ih.1, ih.2.1, ih.2.2, goneOutcome]
        · simp [send_push_notification, hs, pushSent, pushFailed,
            List.filter_cons, ih.1, ih.2.1, ih.2.2]
  · refine ⟨by decide, by decide, by decide⟩

/-- C6 divergence: every request to the recommended-feed endpoint —
anonymous or authenticated, with or without recorded interests — raises
ImportError instead of returning a feed, because both feed builders import
`Article` from `news.models`, which defines no such name; in particular no
request ever receives the trending feed (or any `algorithm` field) the
claim describes.  The dispatch itself tests only `is_authenticated`, so
even under the intended import a no-interest authenticated user would be
routed to the personalized builder, not the trending one. -/
theorem recommended_feed_import_error :
    (∀ page_size page,
      recommendedFeed false page_size page = Except.error articleImportError) ∧
    (∀ page_size page,
      recommendedFeed true page_size page = Except.error articleImportError) ∧
    "Article" ∉ newsModelsClasses :=
  ⟨fun _ _ => rfl, fun _ _ => rfl, by decide⟩


/-- C7: at most one review exists per `(user, content_type, object_id)` —
the uniqueness invariant is preserved by every successful creation — and a
second, well-formed submission for an already-reviewed target is rejected
with the conflict error, producing no state change: no row is added and the
original review is untouched (the error branch leaves the table as it
was). -/
theorem one_review_per_user_target :
    (∀ reviews user ct oid rating title comment,
      1 ≤ rating → rating ≤ 5 →
      (∃ r ∈ reviews, r.user = user ∧ r.content_type = ct ∧ r.object_id = oid) →
      createReview reviews user ct oid rating title comment =
        Except.error ApiError.conflict) ∧
    (∀ reviews user ct oid rating title comment result,
      List.Pairwise (fun r1 r2 => reviewKey r1 ≠ reviewKey r2) reviews →
      createReview reviews user ct oid rating title comment = Except.ok result →
      List.Pairwise (fun r1 r2 => reviewKey r1 ≠ reviewKey r2) result) := by
  constructor
  · intro reviews user ct oid rating title comment h1 h5 hdup
    unfold createReview
    rw [if_neg (by omega), if_pos hdup]
  · intro reviews user ct oid rating title comment result hinv hok
    unfold createReview at hok
    by_cases hr : rating < 1 ∨ 5 < rating
    · rw [if_pos hr] at hok; exact absurd hok (by simp)
    · rw [if_neg hr] at hok
      by_cases hdup : ∃ r ∈ reviews, r.user = user ∧ r.content_type = ct ∧ r.object_id = oid
      · rw [if_pos hdup] at hok; exact absurd hok (by simp)
      · rw [if_neg hdup] at hok
        have hres : result = reviews ++ [⟨user, ct, oid, rating, title, comment, true⟩] := by
          simpa using hok.symm
        subst hres
        rw [List.pairwise_append]
        refine ⟨hinv, List.pairwise_singleton _ _, ?_⟩
        intro r hr b hb
        have hbeq : b = (⟨user, ct, oid, rating, title, comment, true⟩ : Review) := by
          simpa using hb
        subst hbeq
        intro hkey
        exact hdup ⟨r, hr, congrArg (fun p => p.1) hkey,
          congrArg (fun p => p.2.1) hkey, congrArg (fun p => p.2.2) hkey⟩

/-- C7 witness: the conflict conjunct applied to a table already holding a
review by user 10 on target (1, "x"). -/
theorem one_review_per_user_target_witness :
    createReview sampleReviews 10 1 "x" 5 "again" "second" =
      Except.error ApiError.conflict :=
  one_review_per_user_target.1 sampleReviews 10 1 "x" 5 "again" "second"
    (by decide) (by decide) (by decide)

/-- C8: the stats endpoint aggregates approved reviews only — its
`reviews_count` is the number of approved reviews for the target, its
`average_rating` is the arithmetic mean of their ratings rounded to two
decimal places when any exist, and exactly 0 when none exist; on the
concrete table with approved ratings 4 and 5 and an unapproved 1 it reports
count 2 and average 4.5. -/
theorem review_stats_approved_only :
    (∀ db reviews ct oid,
      (interactionStats db reviews ct oid).reviews_count =
        (reviews.filter (approvedFor ct oid)).length ∧
      ((reviews.filter (approvedFor ct oid)).length ≠ 0 →
        (interactionStats db reviews ct oid).average_rating =
          round2 (((reviews.filter (approvedFor ct oid)).map fun r => (r.rating : ℚ)).sum /
            (reviews.filter (approvedFor ct oid)).length)) ∧
      ((reviews.filter (approvedFor ct oid)).length = 0 →
        (interactionStats db reviews ct oid).average_rating = 0)) ∧
    ((interactionStats emptyToggleDb sampleReviews 1 "x").reviews_count = 2 ∧
      (interactionStats emptyToggleDb sampleReviews 1 "x").average_rating = 9 / 2) := by
  constructor
  · intro db reviews ct oid
    refine ⟨rfl, fun h => ?_, fun h => ?_⟩
    · show round2 ((reviewAvg reviews ct oid).getD 0) = _
      unfold reviewAvg
      rw [if_neg h]
      rfl
    · show round2 ((reviewAvg reviews ct oid).getD 0) = 0
      unfold reviewAvg
      rw [if_pos h]
      norm_num [round2, roundHalfEven]
  · constructor
    · decide
    · norm_num [interactionStats, reviewAvg, sampleReviews, approvedFor,
        round2, roundHalfEven]

/-- C8 witness: the zero-approved-reviews conjunct applied to the empty
review table — the reported average is exactly 0. -/
theorem review_stats_approved_only_witness :
    (interactionStats emptyToggleDb [] 1 "x").average_rating = 0 :=
  (review_stats_approved_only.1 emptyToggleDb [] 1 "x").2.2 (by decide)

/-- C9 divergence: saving an already-stored comment whose content is
unchanged nevertheless flips `is_edited` to true and stamps `edited_at`,
because the save override compares the content against
`_state.fields_cache.get(content)`, which is always `None`; the claim (and
the spec) require such a save to leave both fields unchanged.  The
reply-count half of the claim does hold: saving a third reply recomputes
the parent's `reply_count` as the exact count 3. -/
theorem comment_save_always_marks_edited :
    (commentSave 5 [storedComment] storedComment 1000 =
      [⟨"c1", "hello", none, true, some 1000, 0⟩] ∧
      true ≠ false) ∧
    (commentSave 5 parentWithTwoReplies ⟨"r3", "third", some "p", false, none, 0⟩ 1000).map
        (fun r => (r.pk, r.reply_count)) =
      [("p", 3), ("r1", 0), ("r2", 0), ("r3", 0)] := by
  refine ⟨⟨by decide, by decide⟩, by decide⟩

/-- C10 divergence: a push-subscribe request for an endpoint that already
has a row — here owned by a different user and inactive — is rejected by
the serializer's endpoint-uniqueness validator, so the store keeps the old
row unchanged instead of reassigning it to the requester and reactivating
it as the claim states; only a previously unseen endpoint is stored, and
that fresh row does get the requester as owner, the submitted keys and
`is_active=true`. -/
theorem push_resubscribe_rejected :
    (pushSubscribe [existingSub] 2 "ep" "newKey" "newAuth" "newDev" "ua2" =
      Except.error ApiError.validation) ∧
    (pushSubscribe [] 2 "ep" "newKey" "newAuth" "newDev" "ua2" =
      Except.ok [⟨0, 2, "ep", "newKey", "newAuth", "newDev", "ua2", true⟩]) := by
  refine ⟨?_, ?_⟩ <;> simp [pushSubscribe, existingSub]

end GhNoticeBoard
